import Mathlib

set_option maxRecDepth 10000

/-
  Verification of the Hosted-Agents SaaS Platform control plane.

  Shallow embedding of the core subsystems of the repository:
    * policies/rate_limit.py   (FixedWindowRateLimiter, RedisFixedWindowRateLimiter)
    * adapters/storage.py      (InMemoryProvisioningQueue, InMemoryUsageMeter)
    * adapters/postgres.py     (PostgresUsageMeter.record upsert semantics)
    * provisioning/worker.py   (process_next_job)
    * policies/auth.py         (TenantAuthService, bearer-JWT dispatch)
    * policies/quota.py        (allow_request)
    * api/main.py              (execute_run admission pipeline)

  Python dictionaries are modelled as insertion-ordered association lists,
  datetimes as either plain second counts or (year, month, offset) records,
  and Python `int` as Lean `Int` where the source guards against negative
  values (otherwise `Nat`).  String operations are implemented structurally
  over the character list so that concrete instances evaluate in the kernel.
-/

namespace SaasPlatform

/-- dictGet models Python `d.get(k)` on an insertion-ordered dict: the value of
the first binding of `k`, if any. -/
def dictGet {α : Type} (d : List (String × α)) (k : String) : Option α :=
  (d.find? (fun p => p.1 = k)).map Prod.snd

/-- dictSet models Python `d[k] = v`: replace the value of the first binding of
`k` in place, or append a new binding. -/
def dictSet {α : Type} : List (String × α) → String → α → List (String × α)
  | [], k, v => [(k, v)]
  | p :: rest, k, v =>
      if p.1 = k then (k, v) :: rest else p :: dictSet rest k v

/-- pyTake models the Python slice `s[:n]`. -/
def pyTake (s : String) (n : Nat) : String := ⟨s.data.take n⟩

/-- pyStrip models Python `s.strip()`. -/
def pyStrip (s : String) : String :=
  ⟨((s.data.dropWhile Char.isWhitespace).reverse.dropWhile Char.isWhitespace).reverse⟩

/-- pyLower models Python `s.lower()`. -/
def pyLower (s : String) : String := ⟨s.data.map Char.toLower⟩

/-- pyStartsWith models Python `s.startswith(p)`. -/
def pyStartsWith (s p : String) : Bool := p.data.isPrefixOf s.data

/-- pyAfterFirstSpace models `s.split(" ", 1)[1]`: everything after the first
space (used only where the caller has checked that a space exists). -/
def pyAfterFirstSpace (s : String) : String := ⟨(s.data.dropWhile (· ≠ ' ')).drop 1⟩

/-! ## Rate limiter (policies/rate_limit.py) -/

/-- RLState models `FixedWindowRateLimiter._counters`: key → (window, count). -/
abbrev RLState := List (String × (Nat × Nat))

/-- clampRpm models the constructor line `self.requests_per_minute =
max(requests_per_minute, 1)` of both limiter variants (Python int argument). -/
def clampRpm (requests_per_minute : Int) : Nat := (max requests_per_minute 1).toNat

namespace FixedWindowRateLimiter

/-- allow models `FixedWindowRateLimiter.allow`: compute the current window
`now // 60`, reset the stored counter when the window changed, deny when
`count >= limit`, otherwise increment the count and admit.  `now` is the
wall-clock second count (`time.time()`). -/
def allow (limit : Nat) (s : RLState) (now : Nat) (key : String) : Bool × RLState :=
  let nowWindow := now / 60
  let wc := (dictGet s key).getD (nowWindow, 0)
  let wc := if wc.1 ≠ nowWindow then (nowWindow, 0) else wc
  if limit ≤ wc.2 then (false, dictSet s key wc)
  else (true, dictSet s key (wc.1, wc.2 + 1))

end FixedWindowRateLimiter

/-- rlStarted reads the count stored in state `s` for key `k` and window `w`
(0 when no entry, or an entry for a different window, is stored). -/
def rlStarted (s : RLState) (k : String) (w : Nat) : Nat :=
  match dictGet s k with
  | some wc => if wc.1 = w then wc.2 else 0
  | none => 0

/-- rlCountAllowed runs a sequence of `allow` calls `(time, key)` from state `s`
and counts how many calls for key `k` falling in window `w` were admitted. -/
def rlCountAllowed (limit : Nat) (k : String) (w : Nat) :
    RLState → List (Nat × String) → Nat
  | _, [] => 0
  | s, (t, key) :: rest =>
      let r := FixedWindowRateLimiter.allow limit s t key
      (if key = k ∧ t / 60 = w ∧ r.1 then 1 else 0) + rlCountAllowed limit k w r.2 rest

/-- TimesMono says the call sequence is ordered by nondecreasing wall-clock
time, as real calls to the limiter are. -/
def TimesMono (calls : List (Nat × String)) : Prop :=
  calls.Pairwise (fun a b => a.1 ≤ b.1)

namespace RedisFixedWindowRateLimiter

/-- allow models `RedisFixedWindowRateLimiter.allow` on a healthy store.  The
counter map holds the Redis integers; `incr` increments the counter at key
`"{keyPfx}:{window}:{key}"` and the call admits iff the incremented count is at
most the limit.  Key expiry (the TTL set on the first increment) only reclaims
counters of past windows and is not modelled. -/
def allow (limit : Nat) (keyPfx : String) (counters : List (String × Nat))
    (now : Nat) (key : String) : Bool × List (String × Nat) :=
  let redisKey := keyPfx ++ ":" ++ toString (now / 60) ++ ":" ++ key
  let count := (dictGet counters redisKey).getD 0 + 1
  (decide (count ≤ limit), dictSet counters redisKey count)

end RedisFixedWindowRateLimiter

/-! ## Data model (domain/models.py) -/

/-- JobState enumerates the `state` strings of `ProvisioningJob`. -/
inductive JobState
  | queued
  | running
  | done
  | dead_letter
deriving DecidableEq, Repr

/-- ProvisioningJob mirrors `domain/models.py` `ProvisioningJob`.  The pydantic
model defaults `idempotency_key` to `None`, `state` to queued, `retries` to 0,
`max_attempts` to 3 and `available_at`/`created_at` to construction-time now;
`available_at` is carried as an `Option` to express the enqueue-time
defaulting (`job.available_at or now`). -/
structure ProvisioningJob where
  job_id : String
  tenant_id : String
  step : String
  idempotency_key : Option String
  state : JobState
  retries : Int
  max_attempts : Int
  error : Option String
  created_at : Nat
  available_at : Option Nat
deriving DecidableEq, Repr

/-- Tenant mirrors `domain/models.py` `Tenant`. -/
structure Tenant where
  tenant_id : String
  name : String
  plan : String
  status : String
  created_at : Nat
deriving DecidableEq, Repr

/-- DateTime models a timestamp as (UTC year, month, offset within the month);
`strftime("%Y-%m")` of two timestamps agree iff their (year, month) pairs do. -/
structure DateTime where
  year : Nat
  month : Nat
  sub : Nat
deriving DecidableEq, Repr

/-- monthPair models `created_at.strftime("%Y-%m")` as the (year, month) key. -/
def monthPair (d : DateTime) : Nat × Nat := (d.year, d.month)

/-- UsageEvent mirrors `domain/models.py` `UsageEvent` (`cost_estimate` floats
carry only exact small values in the pipeline and are modelled as `Int`). -/
structure UsageEvent where
  tenant_id : String
  agent_id : String
  request_id : String
  model : String
  latency_ms : Nat
  tokens_in : Nat
  tokens_out : Nat
  cost_estimate : Int
  created_at : DateTime
deriving DecidableEq, Repr

/-- TenantUsageSummary mirrors `domain/models.py` `TenantUsageSummary`. -/
structure TenantUsageSummary where
  tenant_id : String
  month : Nat × Nat
  messages_used : Nat
  tokens_used : Nat
  cost_estimate : Int
deriving DecidableEq, Repr

/-! ## In-memory provisioning queue (adapters/storage.py) -/

/-- QState models `InMemoryProvisioningQueue._jobs`, the insertion-ordered dict
`job_id → ProvisioningJob`; since jobs are never deleted, `_job_order`
coincides with the dict's key order. -/
abbrev QState := List (String × ProvisioningJob)

/-- insertSorted inserts `a` into a sorted list, after all elements strictly
required to precede it (stable insertion). -/
def insertSorted {α : Type} (le : α → α → Bool) (a : α) : List α → List α
  | [] => [a]
  | b :: rest => if le a b then a :: b :: rest else b :: insertSorted le a rest

/-- sortByKey models Python's stable `sorted` (extensionally equal to any
stable sort by the same key). -/
def sortByKey {α : Type} (le : α → α → Bool) : List α → List α
  | [] => []
  | a :: rest => insertSorted le a (sortByKey le rest)

namespace InMemoryProvisioningQueue

/-- effectiveKey models `job.idempotency_key or job.job_id` (both `None` and
the empty string are falsy in Python). -/
def effectiveKey (job : ProvisioningJob) : String :=
  match job.idempotency_key with
  | some s => if s = "" then job.job_id else s
  | none => job.job_id

/-- enqueue models `InMemoryProvisioningQueue.enqueue`: a no-op when a stored
job already carries the same idempotency key, otherwise stores a copy with the
resolved key, state queued, and `available_at` defaulted to now when absent.
The `retries`, `max_attempts` and `error` fields of the argument are carried
over unchanged. -/
def enqueue (q : QState) (now : Nat) (job : ProvisioningJob) : QState :=
  if q.any (fun p => decide (p.2.idempotency_key = some (effectiveKey job))) then q
  else
    dictSet q job.job_id
      { job with
        idempotency_key := some (effectiveKey job)
        state := JobState.queued
        available_at := some (job.available_at.getD now) }

/-- availKey reads the sort/eligibility key `job.available_at` (stored jobs
always carry a value; 0 is a placeholder for the unreachable absent case). -/
def availKey (job : ProvisioningJob) : Nat := job.available_at.getD 0

/-- claim_next models `InMemoryProvisioningQueue.claim_next`: walk the jobs in
ascending `available_at` order (stable), skip jobs that are not queued or not
yet available, mark the first hit running, and return a copy of it. -/
def claim_next (q : QState) (now : Nat) : Option ProvisioningJob × QState :=
  match (sortByKey (fun a b => availKey a ≤ availKey b) (q.map Prod.snd)).find?
      (fun job => decide (job.state = JobState.queued) && decide (availKey job ≤ now)) with
  | none => (none, q)
  | some job =>
      (some { job with state := JobState.running },
        dictSet q job.job_id { job with state := JobState.running })

/-- mark_done models `InMemoryProvisioningQueue.mark_done`: silently returns
when the job id is unknown, otherwise unconditionally sets state done. -/
def mark_done (q : QState) (job_id : String) : QState :=
  match dictGet q job_id with
  | none => q
  | some job => dictSet q job_id { job with state := JobState.done }

/-- mark_retry models `InMemoryProvisioningQueue.mark_retry`: silently returns
when the job id is unknown, otherwise unconditionally sets state queued,
increments retries, truncates the error to 500 characters and reschedules at
`now + max(retry_in_seconds, 0)`. -/
def mark_retry (q : QState) (job_id : String) (error : String)
    (retry_in_seconds : Int) (now : Nat) : QState :=
  match dictGet q job_id with
  | none => q
  | some job =>
      dictSet q job_id
        { job with
          state := JobState.queued
          retries := job.retries + 1
          error := some (pyTake error 500)
          available_at := some (now + (max retry_in_seconds 0).toNat) }

/-- mark_dead_letter models `InMemoryProvisioningQueue.mark_dead_letter`:
silently returns when the job id is unknown, otherwise unconditionally sets
state dead_letter, increments retries and truncates the error. -/
def mark_dead_letter (q : QState) (job_id : String) (error : String) : QState :=
  match dictGet q job_id with
  | none => q
  | some job =>
      dictSet q job_id
        { job with
          state := JobState.dead_letter
          retries := job.retries + 1
          error := some (pyTake error 500) }

/-- get_job models `InMemoryProvisioningQueue.get_job` (returns a copy). -/
def get_job (q : QState) (job_id : String) : Option ProvisioningJob :=
  dictGet q job_id

end InMemoryProvisioningQueue

/-! ## Usage meters (adapters/storage.py, adapters/postgres.py) -/

namespace InMemoryUsageMeter

/-- record models `InMemoryUsageMeter.record`: an unconditional list append. -/
def record (events : List UsageEvent) (event : UsageEvent) : List UsageEvent :=
  events ++ [event]

/-- summarize_tenant_month models `InMemoryUsageMeter.summarize_tenant_month`:
filter the events of the tenant whose `created_at` formats to the requested
month and aggregate count, token sum and cost sum. -/
def summarize_tenant_month (events : List UsageEvent) (tenant_id : String)
    (month : Nat × Nat) : TenantUsageSummary :=
  let evs := events.filter
    (fun e => decide (e.tenant_id = tenant_id) && decide (monthPair e.created_at = month))
  { tenant_id := tenant_id
    month := month
    messages_used := evs.length
    tokens_used := (evs.map (fun e => e.tokens_in + e.tokens_out)).sum
    cost_estimate := (evs.map (fun e => e.cost_estimate)).sum }

end InMemoryUsageMeter

namespace PostgresUsageMeter

/-- record models `PostgresUsageMeter.record`: `session.merge` on the primary
key `request_id` replaces the existing row's fields with the new event, or
inserts a new row when the key is absent. -/
def record (event : UsageEvent) : List UsageEvent → List UsageEvent
  | [] => [event]
  | r :: rest =>
      if r.request_id = event.request_id then event :: rest
      else r :: record event rest

end PostgresUsageMeter

/-! ## Provisioning worker (provisioning/worker.py) -/

/-- TenantLookup models the outcome of `catalog.get_tenant` inside the
worker's try block: a tenant, a missing tenant, or a raised exception with its
rendered message (`str(err)`). -/
inductive TenantLookup
  | found (t : Tenant)
  | missing
  | raises (msg : String)

/-- process_next_job models `provisioning/worker.py` `process_next_job`.  The
returned triple is (return value, queue state, tenant written back by the
activation step, if any).  Telemetry spans and logging are effect-free and
omitted.  An exception is modelled as raised by the tenant lookup, the first
statement of the try block. -/
def process_next_job (getTenant : String → TenantLookup) (q : QState)
    (default_max_attempts : Int) (retry_base_seconds : Int) (now : Nat) :
    Bool × QState × Option Tenant :=
  match InMemoryProvisioningQueue.claim_next q now with
  | (none, q') => (false, q', none)
  | (some job, q') =>
      let max_attempts := max (max job.max_attempts default_max_attempts) 1
      match getTenant job.tenant_id with
      | TenantLookup.missing =>
          (false, InMemoryProvisioningQueue.mark_dead_letter q' job.job_id "tenant not found", none)
      | TenantLookup.found tenant =>
          let activated :=
            if tenant.status ≠ "active" then some { tenant with status := "active" } else none
          (true, InMemoryProvisioningQueue.mark_done q' job.job_id, activated)
      | TenantLookup.raises msg =>
          if job.retries + 1 ≥ max_attempts then
            (false, InMemoryProvisioningQueue.mark_dead_letter q' job.job_id msg, none)
          else
            let delay := max retry_base_seconds 0 * 2 ^ (max job.retries 0).toNat
            (false, InMemoryProvisioningQueue.mark_retry q' job.job_id msg delay now, none)

/-! ## Authentication (policies/auth.py) -/

/-- JwtSettings carries the JWT-related fields of `config.py` `Settings`. -/
structure JwtSettings where
  jwt_jwks_url : String
  jwt_issuer : String
  jwt_audience : String
  jwt_shared_secret : String
  jwt_algorithm : String
deriving DecidableEq, Repr

/-- isJwksEnabled models `_is_jwks_enabled`: Python truthiness of
`url.strip() or issuer.strip() or audience.strip()` — true when ANY of the
three is non-empty after stripping. -/
def isJwksEnabled (s : JwtSettings) : Bool :=
  decide (pyStrip s.jwt_jwks_url ≠ "") || decide (pyStrip s.jwt_issuer ≠ "")
    || decide (pyStrip s.jwt_audience ≠ "")

/-- JwtRoute names the verifier that ends up handling a bearer token. -/
inductive JwtRoute
  | jwksVerify
  | sharedVerify
deriving DecidableEq, Repr

/-- decodeBearerRoute models the dispatch of `_decode_bearer_jwt` together
with the configuration-completeness check at the head of
`_decode_bearer_jwt_with_jwks`: the verifier that handles the token, or the
HTTP status 500 of the misconfiguration failure. -/
def decodeBearerRoute (s : JwtSettings) : Except Nat JwtRoute :=
  if isJwksEnabled s then
    if pyStrip s.jwt_jwks_url ≠ "" ∧ pyStrip s.jwt_issuer ≠ "" ∧ pyStrip s.jwt_audience ≠ "" then
      Except.ok JwtRoute.jwksVerify
    else Except.error 500
  else if s.jwt_shared_secret ≠ "" then Except.ok JwtRoute.sharedVerify
  else Except.error 500

/-- TenantContext mirrors `policies/auth.py` `TenantContext`. -/
structure TenantContext where
  tenant_id : String
  customer_user_id : String
deriving DecidableEq, Repr

/-- extract_bearer_token models `_extract_bearer_token`; `none` stands for the
401 `HTTPException`. -/
def extract_bearer_token (authorization : String) : Option String :=
  if authorization = "" ∨ ¬ pyStartsWith (pyLower authorization) "bearer " then none
  else
    let token := pyStrip (pyAfterFirstSpace authorization)
    if token = "" then none else some token

/-- JwtClaims models a decoded JWT payload restricted to string values. -/
abbrev JwtClaims := List (String × String)

/-- pyTruthy models Python truthiness of an optional string. -/
def pyTruthy (v : Option String) : Option String :=
  match v with
  | some s => if s = "" then none else some s
  | none => none

/-- strOr2 models `str(a or b or "")` over claim lookups. -/
def strOr2 (a b : Option String) : String :=
  ((pyTruthy a).orElse (fun _ => pyTruthy b)).getD ""

/-- strOr3 models `str(a or b or c or "")` over claim lookups. -/
def strOr3 (a b c : Option String) : String :=
  ((pyTruthy a).orElse (fun _ => (pyTruthy b).orElse (fun _ => pyTruthy c))).getD ""

/-- getValidJwtSubject models `TenantAuthService._get_valid_jwt_subject`; the
cryptographic verification performed by PyJWT is abstracted as the oracle
`verify`, and every raised exception (missing bearer, misconfiguration,
invalid token) is swallowed into `none` as the blanket `except` does. -/
def getValidJwtSubject (s : JwtSettings) (verify : JwtRoute → String → Option JwtClaims)
    (tenant_id authorization : String) : Option String :=
  match extract_bearer_token authorization with
  | none => none
  | some token =>
      match decodeBearerRoute s with
      | Except.error _ => none
      | Except.ok route =>
          match verify route token with
          | none => none
          | some payload =>
              if strOr2 (dictGet payload "tenant_id") (dictGet payload "tid") ≠ tenant_id then none
              else
                let subj :=
                  pyStrip (strOr3 (dictGet payload "oid") (dictGet payload "sub")
                    (dictGet payload "upn"))
                if subj = "" then none else some subj

/-- AppSettings carries the fields of `config.py` `Settings` that the
admission pipeline reads. -/
structure AppSettings where
  app_env : String
  tenant_api_keys : List (String × String)
  jwt : JwtSettings
  default_rate_limit_rpm : Int
deriving DecidableEq, Repr

/-- isValidApiKey models `TenantAuthService._is_valid_api_key`:
`bool(expected and api_key and api_key == expected)`. -/
def isValidApiKey (keys : List (String × String)) (tenant_id api_key : String) : Bool :=
  match dictGet keys tenant_id with
  | none => false
  | some expected => decide (expected ≠ "") && decide (api_key ≠ "") && decide (api_key = expected)

/-- authenticate models `TenantAuthService.authenticate` with the header
customer id bound to the `x_customer_user_id` parameter (the `execute_run`
call site passes it under the keyword `x_customer_id`, which does not match
this parameter's name — see `executeRunAuthCallKeywords`). -/
def authenticate (s : AppSettings) (verify : JwtRoute → String → Option JwtClaims)
    (path_tenant_id x_tenant_id x_customer_user_id x_api_key authorization : String) :
    Except (Nat × String) TenantContext :=
  if x_tenant_id = "" ∨ x_customer_user_id = "" then
    Except.error (400, "X-Tenant-Id and X-Customer-User-Id are required")
  else if path_tenant_id ≠ x_tenant_id then
    Except.error (403, "Path tenant_id does not match header tenant")
  else if s.tenant_api_keys ≠ [] ∨ s.jwt.jwt_shared_secret ≠ "" ∨ isJwksEnabled s.jwt then
    if isValidApiKey s.tenant_api_keys x_tenant_id x_api_key then
      Except.ok ⟨x_tenant_id, x_customer_user_id⟩
    else
      match getValidJwtSubject s.jwt verify x_tenant_id authorization with
      | some subj =>
          if subj ≠ x_customer_user_id then
            Except.error (403, "X-Customer-User-Id must match token subject")
          else Except.ok ⟨x_tenant_id, subj⟩
      | none => Except.error (401, "Unauthorized tenant credentials")
  else if pyLower (pyStrip s.app_env) = "prod" ∨ pyLower (pyStrip s.app_env) = "production" then
    Except.error (500, "Tenant authentication is not configured")
  else Except.ok ⟨x_tenant_id, x_customer_user_id⟩

/-! ## Quota policy (policies/quota.py) and plans -/

/-- PlanLimits mirrors `domain/models.py` `PlanLimits`. -/
structure PlanLimits where
  monthly_messages : Int
  monthly_token_cap : Int
  max_agents : Int
deriving DecidableEq, Repr

/-- Plan mirrors `domain/models.py` `Plan`. -/
structure Plan where
  plan_id : String
  display_name : String
  limits : PlanLimits
  active : Bool
  created_at : Nat
deriving DecidableEq, Repr

/-- QuotaPolicy mirrors `policies/quota.py` `QuotaPolicy`. -/
structure QuotaPolicy where
  included_messages : Int
  hard_token_cap : Int
deriving DecidableEq, Repr

/-- QuotaCounter mirrors `policies/quota.py` `QuotaCounter`. -/
structure QuotaCounter where
  messages_used : Int
  tokens_used : Int
deriving DecidableEq, Repr

/-- allow_request models `policies/quota.py` `allow_request`. -/
def allow_request (policy : QuotaPolicy) (counter : QuotaCounter)
    (estimated_tokens : Int) : Bool :=
  if counter.messages_used + 1 > policy.included_messages then false
  else if counter.tokens_used + max estimated_tokens 0 > policy.hard_token_cap then false
  else true

/-! ## Admission pipeline (api/main.py execute_run) -/

/-- ExecuteRunResponse mirrors `domain/models.py` `ExecuteRunResponse`. -/
structure ExecuteRunResponse where
  tenant_id : String
  request_id : String
  output_text : String
deriving DecidableEq, Repr

/-- AppState bundles the mutable collaborators `execute_run` touches. -/
structure AppState where
  catalog : List (String × Tenant)
  plans : List (String × Plan)
  limiter : RLState
  usage : List UsageEvent
deriving DecidableEq, Repr

/-- execute_run models the `/v1/tenants/{tenant_id}/runs` handler
(api/main.py `execute_run`): authentication, tenant and plan load, rate limit,
monthly quota against live usage, gateway call, and usage recording.
Environment inputs (wall-clock second `nowSec` for the limiter, calendar
instant `nowDate` for usage, the fresh `uuid4` request id and the measured
latency) are passed explicitly; the agent gateway is the opaque function
`gateway`.  Errors are `(status, detail)` pairs of the raised
`HTTPException`s. -/
def execute_run (cfg : AppSettings) (verify : JwtRoute → String → Option JwtClaims)
    (st : AppState)
    (path_tenant_id x_tenant_id x_customer_user_id x_api_key authorization : String)
    (agent_id message : String) (gateway : String → String → String → String)
    (request_id : String) (latency_ms : Nat) (nowSec : Nat) (nowDate : DateTime) :
    Except (Nat × String) ExecuteRunResponse × AppState :=
  match authenticate cfg verify path_tenant_id x_tenant_id x_customer_user_id x_api_key
      authorization with
  | Except.error e => (Except.error e, st)
  | Except.ok tenant_ctx =>
      match dictGet st.catalog path_tenant_id with
      | none => (Except.error (404, "tenant not found"), st)
      | some tenant =>
          if tenant.status ≠ "active" then
            (Except.error (409, "tenant is not active yet"), st)
          else
            match dictGet st.plans tenant.plan with
            | none => (Except.error (409, "tenant plan is invalid or inactive"), st)
            | some plan =>
                if ¬ plan.active then
                  (Except.error (409, "tenant plan is invalid or inactive"), st)
                else
                  let rate_key := tenant_ctx.tenant_id ++ ":" ++ agent_id
                  let rl := FixedWindowRateLimiter.allow (clampRpm cfg.default_rate_limit_rpm)
                    st.limiter nowSec rate_key
                  let st1 := { st with limiter := rl.2 }
                  if ¬ rl.1 then
                    (Except.error (429, "tenant rate limit exceeded"), st1)
                  else
                    let month := monthPair nowDate
                    let usage_summary :=
                      InMemoryUsageMeter.summarize_tenant_month st1.usage path_tenant_id month
                    let estimated_tokens : Int := ((max (message.length / 4) 1 : Nat) : Int) * 2
                    let policy : QuotaPolicy :=
                      ⟨plan.limits.monthly_messages, plan.limits.monthly_token_cap⟩
                    let counter : QuotaCounter :=
                      ⟨(usage_summary.messages_used : Int), (usage_summary.tokens_used : Int)⟩
                    if ¬ allow_request policy counter estimated_tokens then
                      (Except.error (429, "tenant monthly quota exceeded"), st1)
                    else
                      let output_text := gateway path_tenant_id agent_id message
                      let event : UsageEvent :=
                        { tenant_id := path_tenant_id
                          agent_id := agent_id
                          request_id := request_id
                          model := "provider-default"
                          latency_ms := latency_ms
                          tokens_in := max (message.length / 4) 1
                          tokens_out := max (output_text.length / 4) 1
                          cost_estimate := 0
                          created_at := nowDate }
                      (Except.ok ⟨path_tenant_id, request_id, output_text⟩,
                        { st1 with usage := InMemoryUsageMeter.record st1.usage event })

/-- authenticateParams lists the parameter names of
`TenantAuthService.authenticate` (policies/auth.py), excluding `self`. -/
def authenticateParams : List String :=
  ["path_tenant_id", "x_tenant_id", "x_customer_user_id", "x_api_key", "authorization"]

/-- executeRunAuthCallKeywords lists the keyword arguments the `execute_run`
handler (api/main.py) passes to `ctx.auth.authenticate`. -/
def executeRunAuthCallKeywords : List String :=
  ["path_tenant_id", "x_tenant_id", "x_customer_id", "x_api_key", "authorization"]

/-- Equality of `Except` values is decidable componentwise (needed to evaluate
route and pipeline results on concrete inputs). -/
instance {ε α : Type} [DecidableEq ε] [DecidableEq α] : DecidableEq (Except ε α) :=
  fun a b =>
    match a, b with
    | Except.error e1, Except.error e2 =>
        if h : e1 = e2 then isTrue (by rw [h]) else isFalse (fun hc => h (Except.error.inj hc))
    | Except.ok a1, Except.ok a2 =>
        if h : a1 = a2 then isTrue (by rw [h]) else isFalse (fun hc => h (Except.ok.inj hc))
    | Except.error _, Except.ok _ => isFalse (fun hc => Except.noConfusion hc)
    | Except.ok _, Except.error _ => isFalse (fun hc => Except.noConfusion hc)

/-! ## Concrete scenario values -/

/-- jobDone is a job already in the terminal state done. -/
def jobDone : ProvisioningJob :=
  { job_id := "job-1", tenant_id := "tenant-1", step := "bootstrap",
    idempotency_key := some "tenant-1:bootstrap", state := JobState.done, retries := 1,
    max_attempts := 3, error := none, created_at := 0, available_at := some 0 }

/-- jobFresh is a freshly enqueued job (retries 0). -/
def jobFresh : ProvisioningJob :=
  { job_id := "job-2", tenant_id := "tenant-2", step := "bootstrap",
    idempotency_key := some "tenant-2:bootstrap", state := JobState.queued, retries := 0,
    max_attempts := 2, error := none, created_at := 0, available_at := some 0 }

/-- jobRetried is a job value carrying a nonzero retries field. -/
def jobRetried : ProvisioningJob :=
  { job_id := "job-3", tenant_id := "tenant-3", step := "bootstrap",
    idempotency_key := some "tenant-3:bootstrap", state := JobState.queued, retries := 2,
    max_attempts := 3, error := none, created_at := 0, available_at := none }

/-- eventA is a usage event of tenant t1 in 2026-10. -/
def eventA : UsageEvent :=
  { tenant_id := "t1", agent_id := "support", request_id := "req-1",
    model := "provider-default", latency_ms := 5, tokens_in := 3, tokens_out := 4,
    cost_estimate := 0, created_at := ⟨2026, 10, 12⟩ }

/-- eventB shares eventA's request id but carries different measurements. -/
def eventB : UsageEvent :=
  { tenant_id := "t1", agent_id := "support", request_id := "req-1",
    model := "provider-default", latency_ms := 9, tokens_in := 7, tokens_out := 1,
    cost_estimate := 0, created_at := ⟨2026, 10, 13⟩ }

/-- demoJwt is an all-empty JWT configuration. -/
def demoJwt : JwtSettings := ⟨"", "", "", "", "HS256"⟩

/-- partialJwt configures only the issuer, plus a shared secret. -/
def partialJwt : JwtSettings := ⟨"", "https://login.example/v2.0", "", "secret-1", "HS256"⟩

/-- demoSettings: static key auth for tenant T1 and a per-minute limit of 2
(`DEFAULT_RATE_LIMIT_RPM=2`). -/
def demoSettings : AppSettings :=
  { app_env := "dev", tenant_api_keys := [("T1", "k")], jwt := demoJwt,
    default_rate_limit_rpm := 2 }

/-- demoState: active tenant T1 on the active starter plan, fresh limiter and
empty usage. -/
def demoState : AppState :=
  { catalog := [("T1", ⟨"T1", "Acme", "starter", "active", 0⟩)],
    plans := [("starter", ⟨"starter", "Starter", ⟨5000, 2000000, 3⟩, true, 0⟩)],
    limiter := [], usage := [] }

/-- demoRun issues one authenticated run request for tenant T1 and agent
support in October 2026, with the gateway answering "ok". -/
def demoRun (st : AppState) (nowSec : Nat) (rid : String) :
    Except (Nat × String) ExecuteRunResponse × AppState :=
  execute_run demoSettings (fun _ _ => none) st "T1" "T1" "user-1" "k" "" "support" "hello"
    (fun _ _ _ => "ok") rid 0 nowSec ⟨2026, 10, 12⟩

/-! # Theorems -/

theorem dictGet_cons {α : Type} (p : String × α) (rest : List (String × α)) (k : String) :
    dictGet (p :: rest) k = if p.1 = k then some p.2 else dictGet rest k := by
  by_cases h : p.1 = k <;> simp [dictGet, List.find?_cons, h]

theorem dictGet_dictSet_self {α : Type} (d : List (String × α)) (k : String) (v : α) :
    dictGet (dictSet d k v) k = some v := by
  induction d with
  | nil => simp [dictGet_cons, dictSet]
  | cons p rest ih =>
      by_cases h : p.1 = k
      · rw [dictSet, if_pos h, dictGet_cons, if_pos rfl]
      · rw [dictSet, if_neg h, dictGet_cons, if_neg h]
        exact ih

theorem dictGet_dictSet_ne {α : Type} (d : List (String × α)) (k k' : String) (v : α)
    (h : k ≠ k') : dictGet (dictSet d k v) k' = dictGet d k' := by
  induction d with
  | nil =>
      rw [dictSet, dictGet_cons, if_neg h]
  | cons p rest ih =>
      by_cases hp : p.1 = k
      · rw [dictSet, if_pos hp, dictGet_cons, if_neg h, dictGet_cons,
          if_neg (fun hk' => h (hp ▸ hk'))]
      · rw [dictSet, if_neg hp, dictGet_cons, dictGet_cons]
        by_cases hp' : p.1 = k'
        · rw [if_pos hp', if_pos hp']
        · rw [if_neg hp', if_neg hp']
          exact ih

theorem mem_dictSet_self {α : Type} (d : List (String × α)) (k : String) (v : α) :
    (k, v) ∈ dictSet d k v := by
  induction d with
  | nil => simp [dictSet]
  | cons p rest ih =>
      by_cases h : p.1 = k
      · simp [dictSet, h]
      · simp only [dictSet, if_neg h, List.mem_cons]
        exact Or.inr ih

theorem dictGet_eq_some_of_mem {α : Type} (d : List (String × α)) (k : String) (v : α)
    (hnd : (d.map Prod.fst).Nodup) (hm : (k, v) ∈ d) : dictGet d k = some v := by
  induction d with
  | nil => cases hm
  | cons p rest ih =>
      rw [dictGet_cons]
      rcases List.mem_cons.mp hm with heq | hm'
      · rw [← heq]
        exact if_pos rfl
      · have hnd' : (∀ x, (p.1, x) ∉ rest) ∧ (rest.map Prod.fst).Nodup := by simpa using hnd
        have hne : p.1 ≠ k := fun h => hnd'.1 v (h ▸ hm')
        rw [if_neg hne]
        exact ih hnd'.2 hm'

theorem mem_insertSorted {α : Type} (le : α → α → Bool) (a x : α) (l : List α) :
    x ∈ insertSorted le a l ↔ x = a ∨ x ∈ l := by
  induction l with
  | nil => simp [insertSorted]
  | cons b rest ih =>
      by_cases h : le a b = true
      · simp [insertSorted, h]
      · simp only [insertSorted, if_neg h, List.mem_cons, ih]
        tauto

theorem mem_sortByKey {α : Type} (le : α → α → Bool) (x : α) (l : List α) :
    x ∈ sortByKey le l ↔ x ∈ l := by
  induction l with
  | nil => simp [sortByKey]
  | cons a rest ih =>
      simp [sortByKey, mem_insertSorted, ih]

/-! ## Rate limiter lemmas -/

theorem allow_eq (limit : Nat) (s : RLState) (t : Nat) (k : String) :
    FixedWindowRateLimiter.allow limit s t k =
      if rlStarted s k (t / 60) < limit
      then (true, dictSet s k (t / 60, rlStarted s k (t / 60) + 1))
      else (false, dictSet s k (t / 60, rlStarted s k (t / 60))) := by
  cases hget : dictGet s k with
  | none =>
      by_cases hl : limit = 0
      · subst hl
        simp [FixedWindowRateLimiter.allow, rlStarted, hget]
      · have hl' : 0 < limit := Nat.pos_of_ne_zero hl
        simp [FixedWindowRateLimiter.allow, rlStarted, hget, hl', Nat.le_zero, hl]
  | some wc =>
      obtain ⟨win, cnt⟩ := wc
      by_cases hwin : win = t / 60
      · subst hwin
        by_cases hc : limit ≤ cnt
        · simp [FixedWindowRateLimiter.allow, rlStarted, hget, hc, Nat.not_lt.mpr hc]
        · simp [FixedWindowRateLimiter.allow, rlStarted, hget, hc, Nat.not_le.mp hc]
      · by_cases hl : limit = 0
        · subst hl
          simp [FixedWindowRateLimiter.allow, rlStarted, hget, hwin]
        · have hl' : 0 < limit := Nat.pos_of_ne_zero hl
          simp [FixedWindowRateLimiter.allow, rlStarted, hget, hwin, hl', Nat.le_zero, hl]

theorem allow_other (limit : Nat) (s : RLState) (t : Nat) (k k' : String) (h : k ≠ k') :
    dictGet (FixedWindowRateLimiter.allow limit s t k).2 k' = dictGet s k' := by
  rw [allow_eq]
  split <;> exact dictGet_dictSet_ne _ _ _ _ h

theorem rlCountAllowed_cons (limit : Nat) (k : String) (w : Nat) (s : RLState)
    (t : Nat) (key : String) (rest : List (Nat × String)) :
    rlCountAllowed limit k w s ((t, key) :: rest) =
      (if key = k ∧ t / 60 = w ∧ (FixedWindowRateLimiter.allow limit s t key).1 then 1 else 0)
        + rlCountAllowed limit k w (FixedWindowRateLimiter.allow limit s t key).2 rest := rfl

theorem rlCountAllowed_eq_zero_of_window_ne (limit : Nat) (k : String) (w : Nat) :
    ∀ (calls : List (Nat × String)) (s : RLState),
      (∀ p ∈ calls, p.1 / 60 ≠ w) →
      rlCountAllowed limit k w s calls = 0 := by
  intro calls
  induction calls with
  | nil => intro s _; rfl
  | cons p rest ih =>
      intro s h
      obtain ⟨t, key⟩ := p
      have hp : t / 60 ≠ w := h (t, key) (List.mem_cons_self _ _)
      have hrest : ∀ q ∈ rest, q.1 / 60 ≠ w := fun q hq => h q (List.mem_cons_of_mem _ hq)
      rw [rlCountAllowed_cons, ih _ hrest, if_neg (fun hc => hp hc.2.1)]

theorem rlCountAllowed_add_started_le (limit : Nat) (k : String) (w : Nat) :
    ∀ (calls : List (Nat × String)) (s : RLState), TimesMono calls →
      (∀ v, rlStarted s k v ≤ limit) →
      (∀ p ∈ calls, ∀ wc, dictGet s k = some wc → wc.1 ≤ p.1 / 60) →
      rlCountAllowed limit k w s calls + rlStarted s k w ≤ limit := by
  intro calls
  induction calls with
  | nil =>
      intro s _ hcnt _
      simpa [rlCountAllowed] using hcnt w
  | cons p rest ih =>
      intro s hmono hcnt hwin
      obtain ⟨t, key⟩ := p
      have hmono' : TimesMono rest := (List.pairwise_cons.mp hmono).2
      have hfut : ∀ q ∈ rest, t ≤ q.1 := (List.pairwise_cons.mp hmono).1
      rw [rlCountAllowed_cons]
      by_cases hkey : key = k
      · subst hkey
        by_cases hw : t / 60 = w
        · -- head call lands in the tracked window
          have hself : rlStarted s key w = rlStarted s key (t / 60) := by rw [hw]
          by_cases hnl : rlStarted s key (t / 60) < limit
          · have heq : FixedWindowRateLimiter.allow limit s t key =
                (true, dictSet s key (t / 60, rlStarted s key (t / 60) + 1)) := by
              rw [allow_eq, if_pos hnl]
            have h1 : (FixedWindowRateLimiter.allow limit s t key).1 = true := by rw [heq]
            have h2 : (FixedWindowRateLimiter.allow limit s t key).2 =
                dictSet s key (t / 60, rlStarted s key (t / 60) + 1) := by rw [heq]
            have hst' : ∀ v, rlStarted (dictSet s key (t / 60, rlStarted s key (t / 60) + 1)) key v
                = if t / 60 = v then rlStarted s key (t / 60) + 1 else 0 := by
              intro v; unfold rlStarted; rw [dictGet_dictSet_self]
            have hih := ih (dictSet s key (t / 60, rlStarted s key (t / 60) + 1)) hmono'
              (by
                intro v; rw [hst' v]
                by_cases hv : t / 60 = v
                · rw [if_pos hv]; omega
                · rw [if_neg hv]; exact Nat.zero_le _)
              (by
                intro q hq wc hwc
                rw [dictGet_dictSet_self] at hwc
                cases hwc
                exact Nat.div_le_div_right (hfut q hq))
            rw [hst' w, if_pos hw] at hih
            rw [h2, if_pos ⟨rfl, hw, h1⟩, hself]
            omega
          · have heq : FixedWindowRateLimiter.allow limit s t key =
                (false, dictSet s key (t / 60, rlStarted s key (t / 60))) := by
              rw [allow_eq, if_neg hnl]
            have h1 : (FixedWindowRateLimiter.allow limit s t key).1 = false := by rw [heq]
            have h2 : (FixedWindowRateLimiter.allow limit s t key).2 =
                dictSet s key (t / 60, rlStarted s key (t / 60)) := by rw [heq]
            have hst' : ∀ v, rlStarted (dictSet s key (t / 60, rlStarted s key (t / 60))) key v
                = if t / 60 = v then rlStarted s key (t / 60) else 0 := by
              intro v; unfold rlStarted; rw [dictGet_dictSet_self]
            have hih := ih (dictSet s key (t / 60, rlStarted s key (t / 60))) hmono'
              (by
                intro v; rw [hst' v]
                by_cases hv : t / 60 = v
                · rw [if_pos hv]; exact hcnt (t / 60)
                · rw [if_neg hv]; exact Nat.zero_le _)
              (by
                intro q hq wc hwc
                rw [dictGet_dictSet_self] at hwc
                cases hwc
                exact Nat.div_le_div_right (hfut q hq))
            rw [hst' w, if_pos hw] at hih
            rw [h2, if_neg (by rintro ⟨-, -, hb⟩; rw [h1] at hb; exact Bool.false_ne_true hb),
              hself]
            omega
        · -- head call lands in a different window; afterwards the tracked
          -- window can never be seen again because time is nondecreasing
          obtain ⟨b, m, heq, hmle⟩ : ∃ b m,
              FixedWindowRateLimiter.allow limit s t key = (b, dictSet s key (t / 60, m))
                ∧ m ≤ limit := by
            by_cases hnl : rlStarted s key (t / 60) < limit
            · exact ⟨true, _, by rw [allow_eq, if_pos hnl], by omega⟩
            · exact ⟨false, _, by rw [allow_eq, if_neg hnl], hcnt (t / 60)⟩
          have h2 : (FixedWindowRateLimiter.allow limit s t key).2 =
              dictSet s key (t / 60, m) := by rw [heq]
          have hst' : ∀ v, rlStarted (dictSet s key (t / 60, m)) key v
              = if t / 60 = v then m else 0 := by
            intro v; unfold rlStarted; rw [dictGet_dictSet_self]
          have hih := ih (dictSet s key (t / 60, m)) hmono'
            (by
              intro v; rw [hst' v]
              by_cases hv : t / 60 = v
              · rw [if_pos hv]; exact hmle
              · rw [if_neg hv]; exact Nat.zero_le _)
            (by
              intro q hq wc hwc
              rw [dictGet_dictSet_self] at hwc
              cases hwc
              exact Nat.div_le_div_right (hfut q hq))
          rw [hst' w, if_neg hw] at hih
          rw [h2, if_neg (fun hc => hw hc.2.1)]
          by_cases hn0 : rlStarted s key w = 0
          · rw [hn0]
            simpa using hih
          · -- an entry (w, _) is stored, so w < t / 60 and no later call can
            -- land in window w; the stored count is bounded by the limit
            obtain ⟨wc, hwc, hwcw⟩ : ∃ wc, dictGet s key = some wc ∧ wc.1 = w := by
              by_contra hcon
              push_neg at hcon
              apply hn0
              unfold rlStarted
              cases hg : dictGet s key with
              | none => rfl
              | some wc => exact if_neg (hcon wc hg)
            have hle : w ≤ t / 60 := by
              have := hwin (t, key) (List.mem_cons_self _ _) wc hwc
              omega
            have hlt : w < t / 60 := lt_of_le_of_ne hle (fun h => hw h.symm)
            have hzero : rlCountAllowed limit key w (dictSet s key (t / 60, m)) rest = 0 := by
              apply rlCountAllowed_eq_zero_of_window_ne
              intro q hq
              have h1 : t / 60 ≤ q.1 / 60 := Nat.div_le_div_right (hfut q hq)
              omega
            rw [hzero]
            have := hcnt w
            omega
      · -- head call touches a different key: the tracked key's entry is untouched
        have hsame : dictGet (FixedWindowRateLimiter.allow limit s t key).2 k = dictGet s k :=
          allow_other limit s t key k hkey
        have hstS : ∀ v, rlStarted (FixedWindowRateLimiter.allow limit s t key).2 k v
            = rlStarted s k v := by
          intro v; unfold rlStarted; rw [hsame]
        have hih := ih (FixedWindowRateLimiter.allow limit s t key).2 hmono'
          (fun v => (hstS v) ▸ hcnt v)
          (fun q hq wc hwc => hwin q (List.mem_cons_of_mem _ hq) wc (hsame ▸ hwc))
        rw [hstS w] at hih
        rw [if_neg (fun hc => hkey hc.1)]
        omega

theorem one_le_clampRpm (rpm : Int) : 1 ≤ clampRpm rpm := by
  unfold clampRpm
  have h : (1 : Int) ≤ max rpm 1 := le_max_right _ _
  omega

/-- C8: the single-process fixed-window limiter admits at most `limit` calls
per key within one wall-clock minute (for time-ordered call sequences starting
from the fresh constructor state), and a call that arrives when no count is
stored for the current minute window observes count 0: it is admitted and the
stored count becomes 1, independent of any previous window. -/
theorem rate_limiter_minute_bound_and_window_reset (rpm : Int) (k : String) (w : Nat)
    (calls : List (Nat × String)) (hmono : TimesMono calls)
    (s : RLState) (now : Nat) (hres : rlStarted s k (now / 60) = 0) :
    rlCountAllowed (clampRpm rpm) k w [] calls ≤ clampRpm rpm ∧
    FixedWindowRateLimiter.allow (clampRpm rpm) s now k =
      (true, dictSet s k (now / 60, 1)) := by
  constructor
  · have h := rlCountAllowed_add_started_le (clampRpm rpm) k w calls [] hmono
      (by intro v; simp [rlStarted, dictGet])
      (by intro p hp wc hwc; simp [dictGet] at hwc)
    have h0 : rlStarted [] k w = 0 := by simp [rlStarted, dictGet]
    omega
  · have hpos : 0 < clampRpm rpm := one_le_clampRpm rpm
    rw [allow_eq, hres, if_pos hpos]

/-- rate_limiter_minute_bound_and_window_reset applied at a concrete run:
limit 2, three same-minute calls admitted at most twice, and a call in the
next minute against a stale stored window resets the count to 1 and is
admitted. -/
theorem rate_limiter_minute_bound_and_window_reset_witness :
    rlCountAllowed (clampRpm 2) "t1:agent" 0 []
        [(0, "t1:agent"), (10, "t1:agent"), (20, "t1:agent"), (61, "t1:agent")]
      ≤ clampRpm 2 ∧
    FixedWindowRateLimiter.allow (clampRpm 2) [("t1:agent", (0, 2))] 65 "t1:agent" =
      (true, dictSet [("t1:agent", (0, 2))] "t1:agent" (65 / 60, 1)) :=
  rate_limiter_minute_bound_and_window_reset 2 "t1:agent" 0
    [(0, "t1:agent"), (10, "t1:agent"), (20, "t1:agent"), (61, "t1:agent")]
    (by unfold TimesMono; decide) [("t1:agent", (0, 2))] 65 (by decide)

/-- C10: both limiter constructors clamp `requests_per_minute` to at least 1,
so even a zero or negative configured limit admits the first call of a minute
window: the in-memory variant when no count is stored for the current window,
and the Redis variant when the window's counter is absent (or zero). -/
theorem rate_limiter_clamped_first_call_admitted (rpm : Int) (key keyPfx : String)
    (now : Nat) (s : RLState) (counters : List (String × Nat))
    (h1 : rlStarted s key (now / 60) = 0)
    (h2 : (dictGet counters (keyPfx ++ ":" ++ toString (now / 60) ++ ":" ++ key)).getD 0 = 0) :
    1 ≤ clampRpm rpm ∧
    (FixedWindowRateLimiter.allow (clampRpm rpm) s now key).1 = true ∧
    (RedisFixedWindowRateLimiter.allow (clampRpm rpm) keyPfx counters now key).1 = true := by
  have hpos : 0 < clampRpm rpm := one_le_clampRpm rpm
  refine ⟨one_le_clampRpm rpm, ?_, ?_⟩
  · rw [allow_eq, h1, if_pos hpos]
  · simp only [RedisFixedWindowRateLimiter.allow, h2]
    exact decide_eq_true (one_le_clampRpm rpm)

/-- rate_limiter_clamped_first_call_admitted applied with the pathological
configured limit -3 on fresh limiter states. -/
theorem rate_limiter_clamped_first_call_admitted_witness :
    1 ≤ clampRpm (-3) ∧
    (FixedWindowRateLimiter.allow (clampRpm (-3)) [] 90 "tenant:agent").1 = true ∧
    (RedisFixedWindowRateLimiter.allow (clampRpm (-3)) "saas:ratelimit" [] 90 "tenant:agent").1
      = true :=
  rate_limiter_clamped_first_call_admitted (-3) "tenant:agent" "saas:ratelimit" 90 [] []
    (by decide) (by decide)

/-! ## Provisioning queue lemmas -/

theorem claim_next_cases (q : QState) (now : Nat) (r : Option ProvisioningJob × QState)
    (h : InMemoryProvisioningQueue.claim_next q now = r) :
    r = (none, q) ∨
    ∃ orig, orig ∈ q.map Prod.snd ∧ orig.state = JobState.queued ∧
      InMemoryProvisioningQueue.availKey orig ≤ now ∧
      r = (some { orig with state := JobState.running },
           dictSet q orig.job_id { orig with state := JobState.running }) := by
  unfold InMemoryProvisioningQueue.claim_next at h
  rcases hfind : (sortByKey
      (fun a b => InMemoryProvisioningQueue.availKey a ≤ InMemoryProvisioningQueue.availKey b)
      (q.map Prod.snd)).find?
      (fun job => decide (job.state = JobState.queued)
        && decide (InMemoryProvisioningQueue.availKey job ≤ now)) with _ | found
  · rw [hfind] at h
    exact Or.inl h.symm
  · rw [hfind] at h
    have hmem : found ∈ q.map Prod.snd :=
      (mem_sortByKey _ _ _).mp (List.mem_of_find?_eq_some hfind)
    have hpred := List.find?_some hfind
    rw [Bool.and_eq_true, decide_eq_true_eq, decide_eq_true_eq] at hpred
    exact Or.inr ⟨found, hmem, hpred.1, hpred.2, h.symm⟩

theorem claim_next_stores (q : QState) (now : Nat) (job : ProvisioningJob) (q' : QState)
    (h : InMemoryProvisioningQueue.claim_next q now = (some job, q')) :
    dictGet q' job.job_id = some job := by
  rcases claim_next_cases q now _ h with hnone | ⟨orig, -, -, -, heq⟩
  · exact absurd hnone (by simp)
  · obtain ⟨h1, h2⟩ : some { orig with state := JobState.running } = some job ∧
        dictSet q orig.job_id { orig with state := JobState.running } = q' := by
      simpa [Prod.ext_iff] using heq.symm
    obtain rfl := Option.some.injEq _ _ ▸ h1
    rw [← h2]
    exact dictGet_dictSet_self _ _ _

/-- C9: mark_done, mark_retry and mark_dead_letter with an unknown job id are
silent no-ops: they raise nothing and leave every stored job unchanged. -/
theorem queue_mark_unknown_job_noop (q : QState) (job_id err : String) (rs : Int) (now : Nat)
    (h : dictGet q job_id = none) :
    InMemoryProvisioningQueue.mark_done q job_id = q ∧
    InMemoryProvisioningQueue.mark_retry q job_id err rs now = q ∧
    InMemoryProvisioningQueue.mark_dead_letter q job_id err = q := by
  refine ⟨?_, ?_, ?_⟩ <;>
    simp [InMemoryProvisioningQueue.mark_done, InMemoryProvisioningQueue.mark_retry,
      InMemoryProvisioningQueue.mark_dead_letter, h]

/-- queue_mark_unknown_job_noop applied to a one-job queue and a missing id. -/
theorem queue_mark_unknown_job_noop_witness :
    InMemoryProvisioningQueue.mark_done [("job-1", jobDone)] "missing" = [("job-1", jobDone)] ∧
    InMemoryProvisioningQueue.mark_retry [("job-1", jobDone)] "missing" "err" 3 9 =
      [("job-1", jobDone)] ∧
    InMemoryProvisioningQueue.mark_dead_letter [("job-1", jobDone)] "missing" "err" =
      [("job-1", jobDone)] :=
  queue_mark_unknown_job_noop [("job-1", jobDone)] "missing" "err" 3 9 (by decide)

/-- C3 counterexample: mark_retry on a job whose state is done moves it back
to queued, so a terminal state is not absorbing under the queue operations. -/
theorem queue_terminal_state_overwritten_counterexample :
    jobDone.state = JobState.done ∧
    InMemoryProvisioningQueue.get_job
        (InMemoryProvisioningQueue.mark_retry [("job-1", jobDone)] "job-1" "boom" 5 100)
        "job-1" =
      some { jobDone with
               state := JobState.queued
               retries := jobDone.retries + 1
               error := some "boom"
               available_at := some 105 } := by decide

/-- C3 (amended): claim_next never claims a job that is not queued (so done
and dead_letter jobs are never re-claimed), but the mark operations are
unguarded — applied to any stored job, whatever its state, they overwrite the
state unconditionally, so terminal states are absorbing only under the
worker's discipline of marking only freshly claimed jobs. -/
theorem queue_claim_skips_nonqueued_marks_unguarded :
    (∀ (q : QState) (now : Nat) (id : String) (j : ProvisioningJob),
      (q.map Prod.fst).Nodup → (∀ p ∈ q, p.2.job_id = p.1) →
      dictGet q id = some j → j.state ≠ JobState.queued →
      dictGet (InMemoryProvisioningQueue.claim_next q now).2 id = some j) ∧
    (∀ (q : QState) (id : String) (j : ProvisioningJob) (err : String) (rs : Int) (now : Nat),
      dictGet q id = some j →
        InMemoryProvisioningQueue.mark_done q id = dictSet q id { j with state := JobState.done } ∧
        InMemoryProvisioningQueue.mark_retry q id err rs now =
          dictSet q id
            { j with
                state := JobState.queued
                retries := j.retries + 1
                error := some (pyTake err 500)
                available_at := some (now + (max rs 0).toNat) } ∧
        InMemoryProvisioningQueue.mark_dead_letter q id err =
          dictSet q id
            { j with
                state := JobState.dead_letter
                retries := j.retries + 1
                error := some (pyTake err 500) }) := by
  constructor
  · intro q now id j hnd hwk hget hterm
    rcases hrun : InMemoryProvisioningQueue.claim_next q now with ⟨r, q2⟩
    rcases claim_next_cases q now _ hrun with hnone | ⟨orig, hmem, hqd, -, heq⟩
    · obtain ⟨-, hq2⟩ : r = none ∧ q2 = q := by simpa [Prod.ext_iff] using hnone
      simpa [hq2] using hget
    · obtain ⟨-, hq2⟩ : r = some { orig with state := JobState.running } ∧
          q2 = dictSet q orig.job_id { orig with state := JobState.running } := by
        simpa [Prod.ext_iff] using heq
      by_cases hid : orig.job_id = id
      · exfalso
        obtain ⟨p, hp, hps⟩ := List.mem_map.mp hmem
        have hkey : p.1 = id := by rw [← hwk p hp, hps, hid]
        have : dictGet q id = some orig := by
          have : (id, orig) ∈ q := by
            have : p = (id, orig) := by
              obtain ⟨p1, p2⟩ := p
              simp only at hps hkey
              rw [hps, hkey]
            rwa [this] at hp
          exact dictGet_eq_some_of_mem q id orig hnd this
        rw [hget] at this
        obtain rfl := (Option.some.injEq _ _).mp this
        exact hterm hqd
      · simp only [hq2]
        rw [dictGet_dictSet_ne _ _ _ _ hid]
        exact hget
  · intro q id j err rs now hget
    refine ⟨?_, ?_, ?_⟩ <;>
      simp [InMemoryProvisioningQueue.mark_done, InMemoryProvisioningQueue.mark_retry,
        InMemoryProvisioningQueue.mark_dead_letter, hget]

/-- queue_claim_skips_nonqueued_marks_unguarded applied to a queue holding a
done job and a queued job. -/
theorem queue_claim_skips_nonqueued_marks_unguarded_witness :
    dictGet (InMemoryProvisioningQueue.claim_next
        [("job-1", jobDone), ("job-2", jobFresh)] 50).2 "job-1" = some jobDone ∧
    InMemoryProvisioningQueue.mark_done [("job-1", jobDone)] "job-1" =
      dictSet [("job-1", jobDone)] "job-1" { jobDone with state := JobState.done } :=
  ⟨queue_claim_skips_nonqueued_marks_unguarded.1 [("job-1", jobDone), ("job-2", jobFresh)]
      50 "job-1" jobDone (by decide) (by decide) (by decide) (by decide),
    (queue_claim_skips_nonqueued_marks_unguarded.2 [("job-1", jobDone)] "job-1" jobDone
      "err" 2 9 (by decide)).1⟩

/-- C6 counterexample: enqueue stores the job's own retries field (here 2)
rather than resetting it to 0. -/
theorem enqueue_preserves_retries_counterexample :
    (InMemoryProvisioningQueue.get_job (InMemoryProvisioningQueue.enqueue [] 7 jobRetried)
        "job-3").map (fun j => j.retries) = some 2 ∧ (2 : Int) ≠ 0 := by decide

/-- C6 (amended): two enqueues whose jobs resolve to the same idempotency key
persist exactly one job — the first — stored with state queued, retries
carried over from the enqueued job (0 for a freshly constructed job), and
`available_at` defaulted to now when absent; the second enqueue changes no
stored state. -/
theorem enqueue_idempotent_first_wins (q : QState) (n1 n2 : Nat)
    (j1 j2 : ProvisioningJob)
    (hkey : InMemoryProvisioningQueue.effectiveKey j1 = InMemoryProvisioningQueue.effectiveKey j2) :
    InMemoryProvisioningQueue.enqueue (InMemoryProvisioningQueue.enqueue q n1 j1) n2 j2 =
      InMemoryProvisioningQueue.enqueue q n1 j1 ∧
    ((∀ p ∈ q, p.2.idempotency_key ≠ some (InMemoryProvisioningQueue.effectiveKey j1)) →
      dictGet (InMemoryProvisioningQueue.enqueue q n1 j1) j1.job_id =
        some { j1 with
          idempotency_key := some (InMemoryProvisioningQueue.effectiveKey j1),
          state := JobState.queued,
          available_at := some (j1.available_at.getD n1) }) := by
  constructor
  · by_cases hq : q.any
        (fun p => decide (p.2.idempotency_key = some (InMemoryProvisioningQueue.effectiveKey j1)))
        = true
    · have e1 : InMemoryProvisioningQueue.enqueue q n1 j1 = q := by
        unfold InMemoryProvisioningQueue.enqueue
        rw [if_pos hq]
      have hq2 : q.any
          (fun p => decide (p.2.idempotency_key = some (InMemoryProvisioningQueue.effectiveKey j2)))
          = true := by
        rw [← hkey]; exact hq
      have e2 : InMemoryProvisioningQueue.enqueue q n2 j2 = q := by
        unfold InMemoryProvisioningQueue.enqueue
        rw [if_pos hq2]
      rw [e1, e2]
    · have e1 : InMemoryProvisioningQueue.enqueue q n1 j1 =
          dictSet q j1.job_id
            { j1 with
              idempotency_key := some (InMemoryProvisioningQueue.effectiveKey j1),
              state := JobState.queued,
              available_at := some (j1.available_at.getD n1) } := by
        unfold InMemoryProvisioningQueue.enqueue
        rw [if_neg hq]
      rw [e1]
      unfold InMemoryProvisioningQueue.enqueue
      rw [if_pos]
      apply List.any_eq_true.mpr
      refine ⟨(j1.job_id,
        { j1 with
          idempotency_key := some (InMemoryProvisioningQueue.effectiveKey j1),
          state := JobState.queued,
          available_at := some (j1.available_at.getD n1) }), mem_dictSet_self _ _ _, ?_⟩
      apply decide_eq_true
      show some (InMemoryProvisioningQueue.effectiveKey j1) =
        some (InMemoryProvisioningQueue.effectiveKey j2)
      rw [hkey]
  · intro hnew
    have hq : ¬ (q.any
        (fun p => decide (p.2.idempotency_key = some (InMemoryProvisioningQueue.effectiveKey j1)))
        = true) := by
      rw [List.any_eq_true]
      rintro ⟨p, hp, hdec⟩
      exact hnew p hp (of_decide_eq_true hdec)
    unfold InMemoryProvisioningQueue.enqueue
    rw [if_neg hq]
    exact dictGet_dictSet_self _ _ _

/-- enqueue_idempotent_first_wins applied to two jobs sharing the key
tenant-3:bootstrap enqueued into an empty queue. -/
theorem enqueue_idempotent_first_wins_witness :
    InMemoryProvisioningQueue.enqueue
        (InMemoryProvisioningQueue.enqueue [] 7 jobRetried) 8
        { jobRetried with job_id := "job-3b" } =
      InMemoryProvisioningQueue.enqueue [] 7 jobRetried ∧
    dictGet (InMemoryProvisioningQueue.enqueue [] 7 jobRetried) jobRetried.job_id =
      some { jobRetried with
        idempotency_key := some (InMemoryProvisioningQueue.effectiveKey jobRetried),
        state := JobState.queued,
        available_at := some (jobRetried.available_at.getD 7) } :=
  ⟨(enqueue_idempotent_first_wins [] 7 8 jobRetried { jobRetried with job_id := "job-3b" }
      (by decide)).1,
    (enqueue_idempotent_first_wins [] 7 8 jobRetried { jobRetried with job_id := "job-3b" }
      (by decide)).2 (by decide)⟩

/-! ## Usage meter theorems -/

/-- C2 counterexample: the in-memory meter counts a twice-recorded event twice
in the monthly summary, so recording a duplicate `request_id` is not a no-op. -/
theorem usage_double_record_counted_twice_counterexample :
    (InMemoryUsageMeter.summarize_tenant_month
        (InMemoryUsageMeter.record (InMemoryUsageMeter.record [] eventA) eventA)
        "t1" (2026, 10)).messages_used = 2 ∧
    (InMemoryUsageMeter.summarize_tenant_month (InMemoryUsageMeter.record [] eventA)
        "t1" (2026, 10)).messages_used = 1 := by decide

/-- C2 (amended): the Postgres meter upserts by `request_id` — re-recording an
event is a state-level no-op and two events sharing a request id collapse to
one stored row with the last write winning — while the in-memory meter appends
unconditionally, so a duplicate record adds one more counted message to the
monthly summary whenever the event matches the summarised tenant and month. -/
theorem usage_record_upsert_semantics (m : List UsageEvent) (e : UsageEvent)
    (t : String) (mo : Nat × Nat) :
    PostgresUsageMeter.record e (PostgresUsageMeter.record e m) =
      PostgresUsageMeter.record e m ∧
    (∀ e1 e2 : UsageEvent, e1.request_id = e2.request_id →
      PostgresUsageMeter.record e2 (PostgresUsageMeter.record e1 m) =
        PostgresUsageMeter.record e2 m) ∧
    (InMemoryUsageMeter.summarize_tenant_month
        (InMemoryUsageMeter.record (InMemoryUsageMeter.record m e) e) t mo).messages_used =
      (InMemoryUsageMeter.summarize_tenant_month
        (InMemoryUsageMeter.record m e) t mo).messages_used +
        (if e.tenant_id = t ∧ monthPair e.created_at = mo then 1 else 0) := by
  refine ⟨?_, ?_, ?_⟩
  · induction m with
    | nil => simp [PostgresUsageMeter.record]
    | cons r rest ih =>
        by_cases h : r.request_id = e.request_id
        · simp [PostgresUsageMeter.record, h]
        · simp [PostgresUsageMeter.record, h, ih]
  · intro e1 e2 h12
    induction m with
    | nil => simp [PostgresUsageMeter.record, h12]
    | cons r rest ih =>
        by_cases h : r.request_id = e1.request_id
        · have h2 : r.request_id = e2.request_id := h.trans h12
          simp [PostgresUsageMeter.record, h, h2, h12]
        · have h2 : ¬ r.request_id = e2.request_id := fun hc => h (hc.trans h12.symm)
          simp [PostgresUsageMeter.record, h, h2, ih]
  · by_cases h1 : e.tenant_id = t <;> by_cases h2 : monthPair e.created_at = mo <;>
      simp [InMemoryUsageMeter.record, InMemoryUsageMeter.summarize_tenant_month,
        List.filter_append, h1, h2]

/-- usage_record_upsert_semantics applied at concrete events sharing a
request id. -/
theorem usage_record_upsert_semantics_witness :
    PostgresUsageMeter.record eventA (PostgresUsageMeter.record eventA []) =
      PostgresUsageMeter.record eventA [] ∧
    PostgresUsageMeter.record eventB (PostgresUsageMeter.record eventA []) =
      PostgresUsageMeter.record eventB [] ∧
    (InMemoryUsageMeter.summarize_tenant_month
        (InMemoryUsageMeter.record (InMemoryUsageMeter.record [] eventA) eventA)
        "t1" (2026, 10)).messages_used =
      (InMemoryUsageMeter.summarize_tenant_month (InMemoryUsageMeter.record [] eventA)
        "t1" (2026, 10)).messages_used + 1 := by
  obtain ⟨h1, h2, h3⟩ := usage_record_upsert_semantics [] eventA "t1" (2026, 10)
  refine ⟨h1, h2 eventA eventB (by decide), ?_⟩
  rw [if_pos (by exact ⟨rfl, rfl⟩)] at h3
  exact h3

/-! ## Provisioning worker theorems -/

/-- C5: when processing the claimed job raises, process_next_job returns false
and finalises with attempt budget `max(job.max_attempts, default_max_attempts,
1)`: dead-letter when `retries + 1` reaches the budget, otherwise a retry
scheduled `retry_base_seconds * 2 ^ retries` seconds out. -/
theorem worker_error_backoff_policy (getTenant : String → TenantLookup) (q : QState)
    (dma rbs : Int) (now : Nat) (job : ProvisioningJob) (q' : QState) (msg : String)
    (hclaim : InMemoryProvisioningQueue.claim_next q now = (some job, q'))
    (herr : getTenant job.tenant_id = TenantLookup.raises msg)
    (hbase : 0 ≤ rbs) (hret : 0 ≤ job.retries) :
    (process_next_job getTenant q dma rbs now).1 = false ∧
    (process_next_job getTenant q dma rbs now).2.2 = none ∧
    (job.retries + 1 ≥ max (max job.max_attempts dma) 1 →
      (process_next_job getTenant q dma rbs now).2.1 =
        InMemoryProvisioningQueue.mark_dead_letter q' job.job_id msg) ∧
    (job.retries + 1 < max (max job.max_attempts dma) 1 →
      (process_next_job getTenant q dma rbs now).2.1 =
        InMemoryProvisioningQueue.mark_retry q' job.job_id msg
          (rbs * 2 ^ job.retries.toNat) now) := by
  have hd : max rbs 0 = rbs := max_eq_left hbase
  have hr : max job.retries 0 = job.retries := max_eq_left hret
  refine ⟨?_, ?_, ?_, ?_⟩
  · simp only [process_next_job, hclaim, herr]
    split <;> rfl
  · simp only [process_next_job, hclaim, herr]
    split <;> rfl
  · intro hc
    simp only [process_next_job, hclaim, herr]
    rw [if_pos hc]
  · intro hc
    simp only [process_next_job, hclaim, herr]
    rw [if_neg (not_le.mpr hc), hd, hr]

/-- worker_error_backoff_policy applied to a fresh job with budget 2: the
first failure schedules a retry with zero delay (base 0). -/
theorem worker_error_backoff_policy_witness :
    (process_next_job (fun _ => TenantLookup.raises "boom") [("job-2", jobFresh)] 2 0 5).1
      = false ∧
    (process_next_job (fun _ => TenantLookup.raises "boom") [("job-2", jobFresh)] 2 0 5).2.1 =
      InMemoryProvisioningQueue.mark_retry
        (dictSet [("job-2", jobFresh)] "job-2" { jobFresh with state := JobState.running })
        { jobFresh with state := JobState.running }.job_id "boom"
        (0 * 2 ^ ({ jobFresh with state := JobState.running }.retries.toNat)) 5 :=
  ⟨(worker_error_backoff_policy (fun _ => TenantLookup.raises "boom") [("job-2", jobFresh)]
      2 0 5 { jobFresh with state := JobState.running }
      (dictSet [("job-2", jobFresh)] "job-2" { jobFresh with state := JobState.running })
      "boom" (by decide) rfl (by decide) (by decide)).1,
    (worker_error_backoff_policy (fun _ => TenantLookup.raises "boom") [("job-2", jobFresh)]
      2 0 5 { jobFresh with state := JobState.running }
      (dictSet [("job-2", jobFresh)] "job-2" { jobFresh with state := JobState.running })
      "boom" (by decide) rfl (by decide) (by decide)).2.2.2 (by decide)⟩

/-- C7: a claimed job whose tenant is missing from the catalog is dead-lettered
immediately — whatever the remaining attempt budget — with error "tenant not
found", its retries incremented once (so 1 on a fresh job), and
process_next_job returns false. -/
theorem worker_missing_tenant_dead_letter (getTenant : String → TenantLookup) (q : QState)
    (dma rbs : Int) (now : Nat) (job : ProvisioningJob) (q' : QState)
    (hclaim : InMemoryProvisioningQueue.claim_next q now = (some job, q'))
    (hmiss : getTenant job.tenant_id = TenantLookup.missing) :
    process_next_job getTenant q dma rbs now =
      (false, InMemoryProvisioningQueue.mark_dead_letter q' job.job_id "tenant not found",
        none) ∧
    InMemoryProvisioningQueue.get_job
        ((process_next_job getTenant q dma rbs now).2.1) job.job_id =
      some { job with
               state := JobState.dead_letter
               retries := job.retries + 1
               error := some "tenant not found" } ∧
    (job.retries = 0 →
      (InMemoryProvisioningQueue.get_job
          ((process_next_job getTenant q dma rbs now).2.1) job.job_id).map
        (fun j => j.retries) = some 1) := by
  have hrun : process_next_job getTenant q dma rbs now =
      (false, InMemoryProvisioningQueue.mark_dead_letter q' job.job_id "tenant not found",
        none) := by
    simp only [process_next_job, hclaim, hmiss]
  have hstored := claim_next_stores q now job q' hclaim
  have htake : pyTake "tenant not found" 500 = "tenant not found" := by decide
  have hget : InMemoryProvisioningQueue.get_job
      (InMemoryProvisioningQueue.mark_dead_letter q' job.job_id "tenant not found")
      job.job_id =
      some { job with
               state := JobState.dead_letter
               retries := job.retries + 1
               error := some "tenant not found" } := by
    unfold InMemoryProvisioningQueue.get_job InMemoryProvisioningQueue.mark_dead_letter
    rw [hstored, dictGet_dictSet_self, htake]
  refine ⟨hrun, ?_, ?_⟩
  · rw [hrun]
    exact hget
  · intro h0
    rw [hrun]
    simp only [hget, Option.map_some, h0]
    rfl

/-- worker_missing_tenant_dead_letter applied to a fresh job whose tenant is
unknown: one tick leaves it dead_letter with retries 1. -/
theorem worker_missing_tenant_dead_letter_witness :
    process_next_job (fun _ => TenantLookup.missing) [("job-2", jobFresh)] 3 0 5 =
      (false,
        InMemoryProvisioningQueue.mark_dead_letter
          (dictSet [("job-2", jobFresh)] "job-2" { jobFresh with state := JobState.running })
          { jobFresh with state := JobState.running }.job_id "tenant not found",
        none) ∧
    (InMemoryProvisioningQueue.get_job
        ((process_next_job (fun _ => TenantLookup.missing) [("job-2", jobFresh)] 3 0 5).2.1)
        { jobFresh with state := JobState.running }.job_id).map
      (fun j => j.retries) = some 1 := by
  obtain ⟨h1, _, h3⟩ := worker_missing_tenant_dead_letter (fun _ => TenantLookup.missing)
    [("job-2", jobFresh)] 3 0 5 { jobFresh with state := JobState.running }
    (dictSet [("job-2", jobFresh)] "job-2" { jobFresh with state := JobState.running })
    (by decide) rfl
  exact ⟨h1, h3 (by decide)⟩

/-! ## Authentication dispatch theorems -/

/-- C4 counterexample: with only the issuer configured (plus a shared secret),
`_is_jwks_enabled` is already true — the JWKS branch is taken and fails 500
misconfigured instead of falling back to the shared secret, refuting the
"all non-empty" dispatch condition. -/
theorem jwt_dispatch_partial_config_counterexample :
    isJwksEnabled partialJwt = true ∧
    ¬ (pyStrip partialJwt.jwt_jwks_url ≠ "" ∧ pyStrip partialJwt.jwt_issuer ≠ "" ∧
        pyStrip partialJwt.jwt_audience ≠ "") ∧
    partialJwt.jwt_shared_secret ≠ "" ∧
    decodeBearerRoute partialJwt = Except.error 500 := by decide

/-- C4 (amended): the JWKS branch is taken when ANY of jwks URL, issuer,
audience is non-empty after stripping; it verifies via JWKS exactly when all
three are non-empty and otherwise fails 500 misconfigured even when a shared
secret is configured; the shared secret verifies only when all three are empty
and the secret is non-empty; with nothing configured the request fails 500. -/
theorem jwt_dispatch_characterization (s : JwtSettings) :
    (decodeBearerRoute s = Except.ok JwtRoute.jwksVerify ↔
      (pyStrip s.jwt_jwks_url ≠ "" ∧ pyStrip s.jwt_issuer ≠ "" ∧
        pyStrip s.jwt_audience ≠ "")) ∧
    (decodeBearerRoute s = Except.ok JwtRoute.sharedVerify ↔
      (pyStrip s.jwt_jwks_url = "" ∧ pyStrip s.jwt_issuer = "" ∧
        pyStrip s.jwt_audience = "" ∧ s.jwt_shared_secret ≠ "")) ∧
    (isJwksEnabled s = true ↔
      (pyStrip s.jwt_jwks_url ≠ "" ∨ pyStrip s.jwt_issuer ≠ "" ∨
        pyStrip s.jwt_audience ≠ "")) ∧
    ((isJwksEnabled s = true ∧
        ¬ (pyStrip s.jwt_jwks_url ≠ "" ∧ pyStrip s.jwt_issuer ≠ "" ∧
          pyStrip s.jwt_audience ≠ "")) →
      decodeBearerRoute s = Except.error 500) := by
  by_cases e1 : pyStrip s.jwt_jwks_url = "" <;>
    by_cases e2 : pyStrip s.jwt_issuer = "" <;>
      by_cases e3 : pyStrip s.jwt_audience = "" <;>
        by_cases hs : s.jwt_shared_secret = "" <;>
          simp [decodeBearerRoute, isJwksEnabled, e1, e2, e3, hs]

/-- jwt_dispatch_characterization applied to the partial configuration (issuer
only, secret set → 500) and to the empty configuration. -/
theorem jwt_dispatch_characterization_witness :
    decodeBearerRoute partialJwt = Except.error 500 ∧
    (decodeBearerRoute demoJwt = Except.ok JwtRoute.sharedVerify ↔
      (pyStrip demoJwt.jwt_jwks_url = "" ∧ pyStrip demoJwt.jwt_issuer = "" ∧
        pyStrip demoJwt.jwt_audience = "" ∧ demoJwt.jwt_shared_secret ≠ "")) :=
  ⟨(jwt_dispatch_characterization partialJwt).2.2.2 (by decide),
    (jwt_dispatch_characterization demoJwt).2.1⟩

/-! ## Admission pipeline theorem -/

/-- C1: the `execute_run` handler passes the header customer id to
`TenantAuthService.authenticate` under the keyword `x_customer_id`, which is
not among that method's parameter names (it declares `x_customer_user_id`), so
the literal call raises a `TypeError` (HTTP 500) on every run request.  Under
the intended binding — the one the repository's own rate-limit test expects —
three same-minute requests with a valid static key, an active tenant on an
active plan, and a per-minute limit of 2 answer 200, 200, then 429 with the
rate-limit (not quota) detail. -/
theorem execute_run_rate_limit_sequence :
    ("x_customer_id" ∈ executeRunAuthCallKeywords ∧
      "x_customer_id" ∉ authenticateParams) ∧
    (demoRun demoState 10 "r1").1 = Except.ok ⟨"T1", "r1", "ok"⟩ ∧
    (demoRun (demoRun demoState 10 "r1").2 20 "r2").1 = Except.ok ⟨"T1", "r2", "ok"⟩ ∧
    (demoRun (demoRun (demoRun demoState 10 "r1").2 20 "r2").2 30 "r3").1 =
      Except.error (429, "tenant rate limit exceeded") ∧
    ("tenant rate limit exceeded" : String) ≠ "tenant monthly quota exceeded" := by
  decide

end SaasPlatform
